import Mathlib

/-!
A verification development for the MySQL MCP server (src/index.ts).

The source is a small protocol adapter: it resolves a database URL at startup
(defaulting the database name and the username), creates a connection pool,
and serves three request kinds: listing tables as resources, reading one
table's column schema, and the single "query" tool, which executes one
caller-supplied SQL string inside a read-only session and an explicit
transaction that is always rolled back.

The embedding below translates the handler code into pure Lean functions with
explicit state passing.  The MySQL server and the WHATWG URL class are
external collaborators of the source; their behaviour, where the handlers
rely on it, is modelled by small step functions whose doc comments state
which documented behaviour of the collaborator they capture.
-/

namespace MySqlMcp

/-- A SQL value as it appears in a result row returned by the driver. -/
inductive Value where
  | vInt (n : Int)
  | vStr (s : String)
  | vNull
  deriving DecidableEq, Repr

/-- A result row: a mapping from column name to value, in column order
(the driver returns each row as a JS object). -/
abbrev Row := List (String × Value)

/-- The rows of one table. -/
abbrev Table := List Row

/-- The committed database state: every row of every table, keyed by table
name. -/
abbrev Database := List (String × Table)

/-- Database-level errors surfaced by the MySQL server to the driver:
rejection of a write inside a read-only transaction (MySQL error 1792),
rejection of a transaction-characteristics change while a transaction is in
progress (MySQL error 1568), and any other database-side failure (malformed
SQL, permission denial, runtime error) carrying its message. -/
inductive QueryError where
  | readOnlyViolation
  | txCharacteristics
  | dbError (msg : String)
  deriving DecidableEq, Repr

/-- One single SQL statement as classified by the MySQL server.  The caller
of the query tool supplies exactly one such statement (the mysql2 driver is
configured without multi-statement support, so one `connection.query` call
carries one statement).  `read` covers SELECT-like statements producing rows;
`write` covers INSERT/UPDATE/DELETE and DDL text (DDL implicitly commits,
marked by `implicitlyCommits`); `fail` covers statements the server rejects
outright (malformed SQL, permission denial) with a given error; the remaining
constructors are the session- and transaction-control statements the handler
itself issues, which a caller may also submit. -/
inductive SqlStmt where
  | read (q : Database → List Row)
  | write (f : Database → Database) (implicitlyCommits : Bool)
  | fail (e : QueryError)
  | beginTx
  | commitTx
  | rollbackTx
  | setSessionReadOnly
  | setSessionReadWrite

/-- An open transaction on one connection: its access mode (fixed at BEGIN
from the session default) and its uncommitted view of the database. -/
structure Tx where
  readOnly : Bool
  pending : Database

/-- One physical MySQL connection: the committed database state it operates
on, the session-level transaction access mode
(`SET SESSION TRANSACTION READ ONLY` sets it), and the transaction in
progress, if any. -/
structure MySqlConn where
  committed : Database
  readOnlyMode : Bool
  tx : Option Tx

/-- The view of the database a statement executing on the connection sees:
the pending view of the open transaction, else the committed state. -/
def currentView (c : MySqlConn) : Database :=
  match c.tx with
  | some t => t.pending
  | none => c.committed

/-- Commit the transaction in progress, if any (the implicit commit MySQL
performs before DDL and before a nested BEGIN). -/
def implicitCommit (c : MySqlConn) : MySqlConn :=
  match c.tx with
  | some t => { c with committed := t.pending, tx := none }
  | none => c

/-- Models the MySQL server executing one statement on one connection, at the
level the handler relies on: reads return rows from the current view and
change nothing; writes inside a read-only transaction (or autocommitted under
a read-only session) are rejected with error 1792; DDL implicitly commits
before executing; BEGIN implicitly commits any transaction in progress and
opens a transaction whose access mode is the session default; COMMIT applies
the pending view; ROLLBACK discards it; `SET SESSION TRANSACTION READ
ONLY`/`READ WRITE` set the session default access mode but are rejected with
error 1568 while a transaction is in progress. -/
def execStmt (c : MySqlConn) (s : SqlStmt) : Except QueryError (List Row) × MySqlConn :=
  match s with
  | SqlStmt.read q => (Except.ok (q (currentView c)), c)
  | SqlStmt.fail e => (Except.error e, c)
  | SqlStmt.write f ddl =>
    if ddl then
      let c1 := implicitCommit c
      if c1.readOnlyMode then (Except.error QueryError.readOnlyViolation, c1)
      else (Except.ok [], { c1 with committed := f c1.committed })
    else
      match c.tx with
      | some t =>
        if t.readOnly then (Except.error QueryError.readOnlyViolation, c)
        else (Except.ok [], { c with tx := some { t with pending := f t.pending } })
      | none =>
        if c.readOnlyMode then (Except.error QueryError.readOnlyViolation, c)
        else (Except.ok [], { c with committed := f c.committed })
  | SqlStmt.beginTx =>
    let c1 := implicitCommit c
    (Except.ok [], { c1 with tx := some { readOnly := c1.readOnlyMode, pending := c1.committed } })
  | SqlStmt.commitTx => (Except.ok [], implicitCommit c)
  | SqlStmt.rollbackTx => (Except.ok [], { c with tx := none })
  | SqlStmt.setSessionReadOnly =>
    match c.tx with
    | some _ => (Except.error QueryError.txCharacteristics, c)
    | none => (Except.ok [], { c with readOnlyMode := true })
  | SqlStmt.setSessionReadWrite =>
    match c.tx with
    | some _ => (Except.error QueryError.txCharacteristics, c)
    | none => (Except.ok [], { c with readOnlyMode := false })

/-- The connection pool's caller-visible accounting: how many connections are
currently handed out (`pool.getConnection()` increments it,
`connection.release()` decrements it). -/
structure PoolState where
  held : Nat
  deriving DecidableEq, Repr

/-- Pool operations performed by a handler, in order. -/
inductive PoolEvent where
  | acquire
  | release
  deriving DecidableEq, Repr

/-- Escaping of one character inside a JSON string literal, as performed by
the JavaScript builtin `JSON.stringify` for the characters that can occur in
this development's values (backslash and double quote). -/
def escapeJsonChar (c : Char) : String :=
  if c = '\\' then "\\\\" else if c = '"' then "\\\"" else String.singleton c

/-- JSON string-literal escaping of a whole string. -/
def escapeJson (s : String) : String :=
  String.join (s.data.map escapeJsonChar)

/-- Serialization of one SQL value as `JSON.stringify` prints it. -/
def jsonOfValue : Value → String
  | Value.vInt n => toString n
  | Value.vStr s => "\"" ++ escapeJson s ++ "\""
  | Value.vNull => "null"

/-- One `"column": value` member line at object depth inside
`JSON.stringify(rows, null, 2)` (four spaces of indentation). -/
def jsonOfEntry (kv : String × Value) : String :=
  "    \"" ++ escapeJson kv.1 ++ "\": " ++ jsonOfValue kv.2

/-- One row object inside `JSON.stringify(rows, null, 2)` (two spaces of
indentation for the braces). -/
def jsonOfRow (r : Row) : String :=
  match r with
  | [] => "  \x7b\x7d"
  | _ => "  \x7b\n" ++ String.intercalate ",\n" (r.map jsonOfEntry) ++ "\n  \x7d"

/-- Models the JavaScript builtin `JSON.stringify(rows, null, 2)` applied to
the driver's result-row array: an array of flat row objects, pretty-printed
with an indentation step of two spaces (src/index.ts lines 124 and 163). -/
def jsonStringifyRows (rows : List Row) : String :=
  match rows with
  | [] => "[]"
  | _ => "[\n" ++ String.intercalate ",\n" (rows.map jsonOfRow) ++ "\n]"

/-- Embeds src/index.ts line 79: `const SCHEMA_PATH = "schema"`. -/
def SCHEMA_PATH : String := "schema"

/-- The components of a parsed connection URL, as exposed by the WHATWG URL
class fields the source reads and writes: protocol, username, password,
hostname, port and pathname.  `port = none` models the empty port string. -/
structure Url where
  scheme : String
  username : String
  password : String
  host : String
  port : Option Nat
  pathname : String
  deriving DecidableEq, Repr

/-- The URL with its password component removed. -/
def stripPassword (u : Url) : Url :=
  { u with password := "" }

/-- Embeds src/index.ts lines 35-54: the startup defaulting applied to the
database URL.  If the pathname is empty or `/`, the pathname becomes
`/mysql`; if the username is empty, it becomes `root`.  (The source performs
each step by mutating a URL object and re-serialising it; the round trip
through `url.toString()` and `new URL` preserves the components, so the
composition is the two field updates below.) -/
def resolveDatabaseUrl (u : Url) : Url :=
  let u1 := if u.pathname = "" ∨ u.pathname = "/" then { u with pathname := "/mysql" } else u
  if u.username = "" then { u1 with username := "root" } else u1

/-- Embeds `url.pathname.replace(/^\//, "")` from src/index.ts line 73:
removes one leading slash if present. -/
def stripLeadingSlash (p : String) : String :=
  match p.data with
  | [] => p
  | c :: rest => if c = '/' then String.mk rest else p

/-- Embeds the `connectionConfig` object of src/index.ts lines 68-74. -/
structure ConnectionConfig where
  host : String
  port : Nat
  user : String
  password : String
  database : String
  deriving DecidableEq, Repr

/-- Embeds src/index.ts lines 66-74: the MySQL connection parameters read
off the resolved database URL; an absent port defaults to 3306. -/
def connectionConfigOf (u : Url) : ConnectionConfig :=
  { host := u.host
    port := u.port.getD 3306
    user := u.username
    password := u.password
    database := stripLeadingSlash u.pathname }

/-- Embeds src/index.ts lines 62-64: the base URL for resource URIs is the
database URL with its protocol forced to `mysql:` and its password cleared. -/
def resourceBaseUrl (u : Url) : Url :=
  { u with scheme := "mysql", password := "" }

/-- Models `String.prototype.split("/")` of JavaScript (also the behaviour of
Lean's `String.splitOn "/"`), written by structural recursion over the
characters so that it evaluates by kernel reduction. -/
def splitSlash (cs : List Char) : List String :=
  match cs with
  | [] => [""]
  | c :: rest =>
    let r := splitSlash rest
    if c = '/' then "" :: r
    else
      match r with
      | [] => [String.singleton c]
      | h :: t => (String.singleton c ++ h) :: t

/-- The `/`-separated segments of a pathname, as `pathname.split("/")`
produces them (src/index.ts line 104). -/
def pathSegments (p : String) : List String :=
  splitSlash p.data

/-- The directory part of a base URL's pathname used by WHATWG relative-URL
resolution: everything up to and including the final slash (the final
segment is dropped). -/
def dropLastSegment (p : String) : String :=
  String.intercalate "/" (pathSegments p).dropLast ++ "/"

/-- Models `new URL(rel, base)` of the WHATWG URL class for a relative
reference `rel` containing no scheme, authority or leading slash: the result
keeps the base's scheme, userinfo, host and port, and its path is the base's
directory part followed by `rel`. -/
def resolveRel (base : Url) (rel : String) : Url :=
  { base with pathname := dropLastSegment base.pathname ++ rel }

/-- Models the `href` serialisation of the WHATWG URL class for the URLs of
this development: scheme, `://`, userinfo (present when a username or
password is set), host, optional port, pathname. -/
def hrefOf (u : Url) : String :=
  u.scheme ++ "://" ++
    (if u.username = "" ∧ u.password = "" then ""
     else u.username ++ (if u.password = "" then "" else ":" ++ u.password) ++ "@") ++
    u.host ++
    (match u.port with
     | some p => ":" ++ toString p
     | none => "") ++
    u.pathname

/-- The try-block of the query tool handler (src/index.ts lines 156-160):
`SET SESSION TRANSACTION READ ONLY`, then `beginTransaction()`, then the
caller's SQL, stopping at the first failure.  Returns the block's outcome,
the connection state it leaves behind, and the statements issued on the
connection, in order. -/
def queryBody (conn : MySqlConn) (sql : SqlStmt) :
    Except QueryError (List Row) × MySqlConn × List SqlStmt :=
  match execStmt conn SqlStmt.setSessionReadOnly with
  | (Except.error e, c1) => (Except.error e, c1, [SqlStmt.setSessionReadOnly])
  | (Except.ok _, c1) =>
    match execStmt c1 SqlStmt.beginTx with
    | (Except.error e, c2) => (Except.error e, c2, [SqlStmt.setSessionReadOnly, SqlStmt.beginTx])
    | (Except.ok _, c2) =>
      ((execStmt c2 sql).1, (execStmt c2 sql).2,
        [SqlStmt.setSessionReadOnly, SqlStmt.beginTx, sql])

/-- The connection state after the handler's two setup statements
(`SET SESSION TRANSACTION READ ONLY` and `beginTransaction()`) have run. -/
def connAfterSetup (c : MySqlConn) : MySqlConn :=
  (execStmt (execStmt c SqlStmt.setSessionReadOnly).2 SqlStmt.beginTx).2

/-- Everything a query tool call produces: the caller-visible outcome (the
returned result set, or the error thrown), the serialised content text on
success, the connection state released back to the pool, the pool accounting,
the pool operations, the statements issued on the connection in order, and
whether the rollback-failure warning was printed. -/
structure QueryToolResult where
  outcome : Except QueryError (List Row)
  content : Option String
  conn : MySqlConn
  pool : PoolState
  poolEvents : List PoolEvent
  stmts : List SqlStmt
  rollbackWarned : Bool

/-- Embeds the `query` branch of the CallToolRequestSchema handler
(src/index.ts lines 150-178): acquire a connection, run the try-block
(`queryBody`), then the finally-block: attempt `connection.rollback()` -
`rbFault` injects the environment failure of that call, which the source
catches and reports as a warning - and release the connection.  The
caller-visible outcome is the try-block's result or error; the `catch (error)
throw error` of the source re-throws the same error value. -/
def handleQueryTool (pool : PoolState) (conn : MySqlConn) (sql : SqlStmt) (rbFault : Bool) :
    QueryToolResult :=
  let b := queryBody conn sql
  { outcome := b.1
    content :=
      match b.1 with
      | Except.ok rows => some (jsonStringifyRows rows)
      | Except.error _ => none
    conn := if rbFault then b.2.1 else (execStmt b.2.1 SqlStmt.rollbackTx).2
    pool := ⟨pool.held + 1 - 1⟩
    poolEvents := [PoolEvent.acquire, PoolEvent.release]
    stmts := b.2.2 ++ [SqlStmt.rollbackTx]
    rollbackWarned := rbFault }

/-- One resource entry as returned by the ListResources handler
(src/index.ts lines 89-95). -/
structure ResourceEntry where
  uri : String
  mimeType : String
  name : String
  deriving DecidableEq, Repr

/-- Everything a ListResources call produces. -/
structure ListResourcesResult where
  outcome : Except QueryError (List ResourceEntry)
  pool : PoolState
  poolEvents : List PoolEvent

/-- Embeds the ListResourcesRequestSchema handler (src/index.ts lines
81-99): acquire a connection, query `information_schema.tables` for the
configured database's table names (the query's result is the table names of
`db`; `qFault` injects a database failure of that query), build one resource
entry per table against `resourceBaseUrl u`, and release the connection in a
finally-block on both paths. -/
def handleListResources (pool : PoolState) (db : Database) (u : Url)
    (qFault : Option QueryError) : ListResourcesResult :=
  { outcome :=
      match qFault with
      | some e => Except.error e
      | none =>
        Except.ok ((db.map Prod.fst).map (fun t =>
          { uri := hrefOf (resolveRel (resourceBaseUrl u) (t ++ "/" ++ SCHEMA_PATH))
            mimeType := "application/json"
            name := "\"" ++ t ++ "\" database schema" }))
    pool := ⟨pool.held + 1 - 1⟩
    poolEvents := [PoolEvent.acquire, PoolEvent.release] }

/-- Everything a ReadResource call produces; `queriedTable = some t` records
that the columns query was issued with bind parameter `t`. -/
structure ReadResourceResult where
  outcome : Except String String
  pool : PoolState
  poolEvents : List PoolEvent
  queriedTable : Option (Option String)

/-- Embeds the ReadResourceRequestSchema handler (src/index.ts lines
101-131): split the request URI's pathname on `/`, pop the last segment
(`schema`) and then the second-to-last (`tableName`); if the last segment is
not `schema`, throw `Invalid resource URI` before any connection is acquired;
otherwise acquire a connection, query `information_schema.columns` for
`tableName` (`colsOf` is the database's answer to that query; `qFault`
injects its failure), and release the connection in a finally-block on both
paths. -/
def handleReadResource (pool : PoolState) (uri : Url) (colsOf : Option String → List Row)
    (qFault : Option String) : ReadResourceResult :=
  if (pathSegments uri.pathname).getLast? ≠ some SCHEMA_PATH then
    { outcome := Except.error "Invalid resource URI"
      pool := pool
      poolEvents := []
      queriedTable := none }
  else
    { outcome :=
        match qFault with
        | some e => Except.error e
        | none => Except.ok (jsonStringifyRows (colsOf (pathSegments uri.pathname).dropLast.getLast?))
      pool := ⟨pool.held + 1 - 1⟩
      poolEvents := [PoolEvent.acquire, PoolEvent.release]
      queriedTable := some (pathSegments uri.pathname).dropLast.getLast? }

/-- C1: for every SQL statement submitted to the query tool — including valid
INSERT/UPDATE/DELETE/DDL text — the committed database state (every row of
every table) after the call returns equals the committed state before the
call, whether the call reports success or failure, and whether or not the
rollback attempt itself succeeds. -/
theorem query_tool_preserves_database (pool : PoolState) (conn : MySqlConn)
    (sql : SqlStmt) (rbFault : Bool) :
    (handleQueryTool pool conn sql rbFault).conn.committed = conn.committed := by
  obtain ⟨cm, ro, tx⟩ := conn
  cases tx with
  | some t => cases rbFault <;> rfl
  | none =>
    cases sql with
    | read q => cases rbFault <;> rfl
    | write f ddl => cases ddl <;> cases rbFault <;> rfl
    | fail e => cases rbFault <;> rfl
    | beginTx => cases rbFault <;> rfl
    | commitTx => cases rbFault <;> rfl
    | rollbackTx => cases rbFault <;> rfl
    | setSessionReadOnly => cases rbFault <;> rfl
    | setSessionReadWrite => cases rbFault <;> rfl

/-- C2: on a pooled connection with no transaction in progress, the
statements a query tool call issues on the connection are, in order: the
session read-only setting, the transaction begin, the caller's SQL verbatim
as a single statement, and then — on success and failure alike — a rollback
attempt; in particular no caller SQL runs before the read-only setting and
the begin. -/
theorem query_tool_statement_order (pool : PoolState) (conn : MySqlConn)
    (sql : SqlStmt) (rbFault : Bool) (h : conn.tx = none) :
    (handleQueryTool pool conn sql rbFault).stmts =
      [SqlStmt.setSessionReadOnly, SqlStmt.beginTx, sql, SqlStmt.rollbackTx] := by
  obtain ⟨cm, ro, tx⟩ := conn
  cases tx with
  | some t => simp at h
  | none => rfl

/-- Witness for C2 at a concrete pool, connection and caller statement. -/
theorem query_tool_statement_order_witness :
    (handleQueryTool ⟨0⟩ ⟨[], false, none⟩ SqlStmt.commitTx false).stmts =
      [SqlStmt.setSessionReadOnly, SqlStmt.beginTx, SqlStmt.commitTx, SqlStmt.rollbackTx] :=
  query_tool_statement_order ⟨0⟩ ⟨[], false, none⟩ SqlStmt.commitTx false rfl

/-- C3: the caller-visible outcome and content of a query tool call are the
same whether or not the rollback in the finally-block fails: a query failure
stays the visible error and a captured result set stays the visible result;
a rollback failure surfaces only as the warning diagnostic. -/
theorem rollback_failure_never_masks_outcome (pool : PoolState) (conn : MySqlConn)
    (sql : SqlStmt) :
    (handleQueryTool pool conn sql true).outcome = (handleQueryTool pool conn sql false).outcome
    ∧ (handleQueryTool pool conn sql true).content = (handleQueryTool pool conn sql false).content
    ∧ (handleQueryTool pool conn sql true).rollbackWarned = true :=
  ⟨rfl, rfl, rfl⟩

/-- C4: each of the three handlers that acquires a connection (resource list,
resource read, query execution) releases it exactly once on every exit path,
so the number of connections held by the pool after the call equals the
number held before it; the resource-read handler either never acquires (the
invalid-URI path) or acquires and releases exactly once. -/
theorem connection_released_exactly_once
    (pool1 : PoolState) (db : Database) (u : Url) (qf : Option QueryError)
    (pool2 : PoolState) (uri : Url) (colsOf : Option String → List Row) (qf2 : Option String)
    (pool3 : PoolState) (conn : MySqlConn) (sql : SqlStmt) (rbFault : Bool) :
    ((handleListResources pool1 db u qf).pool.held = pool1.held
      ∧ (handleListResources pool1 db u qf).poolEvents = [PoolEvent.acquire, PoolEvent.release])
    ∧ ((handleReadResource pool2 uri colsOf qf2).pool.held = pool2.held
      ∧ ((handleReadResource pool2 uri colsOf qf2).poolEvents = []
          ∨ (handleReadResource pool2 uri colsOf qf2).poolEvents
              = [PoolEvent.acquire, PoolEvent.release]))
    ∧ ((handleQueryTool pool3 conn sql rbFault).pool.held = pool3.held
      ∧ (handleQueryTool pool3 conn sql rbFault).poolEvents
          = [PoolEvent.acquire, PoolEvent.release]) := by
  refine ⟨⟨rfl, rfl⟩, ?_, rfl, rfl⟩
  by_cases hc : (pathSegments uri.pathname).getLast? ≠ some SCHEMA_PATH
  · simp [handleReadResource, hc]
  · push_neg at hc
    simp [handleReadResource, hc]

/-- C5: a database-level error raised while executing the caller's SQL
propagates up as the call's result with the same error value, and the
caller's statement is issued exactly once (no retry); the only cleanup is
the rollback-then-release sequence. -/
theorem query_errors_propagate_unmodified (pool : PoolState) (conn : MySqlConn)
    (sql : SqlStmt) (rbFault : Bool) (e : QueryError) (h : conn.tx = none)
    (hfail : (execStmt (connAfterSetup conn) sql).1 = Except.error e) :
    (handleQueryTool pool conn sql rbFault).outcome = Except.error e
    ∧ (handleQueryTool pool conn sql rbFault).stmts =
        [SqlStmt.setSessionReadOnly, SqlStmt.beginTx, sql, SqlStmt.rollbackTx] := by
  obtain ⟨cm, ro, tx⟩ := conn
  cases tx with
  | some t => simp at h
  | none => exact ⟨hfail, rfl⟩

/-- Witness for C5: a statement the database rejects with a syntax error
surfaces that very error, even when the rollback also fails. -/
theorem query_errors_propagate_unmodified_witness :
    (handleQueryTool ⟨0⟩ ⟨[], false, none⟩
        (SqlStmt.fail (QueryError.dbError "syntax error")) true).outcome
      = Except.error (QueryError.dbError "syntax error")
    ∧ (handleQueryTool ⟨0⟩ ⟨[], false, none⟩
        (SqlStmt.fail (QueryError.dbError "syntax error")) true).stmts
      = [SqlStmt.setSessionReadOnly, SqlStmt.beginTx,
         SqlStmt.fail (QueryError.dbError "syntax error"), SqlStmt.rollbackTx] :=
  query_errors_propagate_unmodified ⟨0⟩ ⟨[], false, none⟩
    (SqlStmt.fail (QueryError.dbError "syntax error")) true
    (QueryError.dbError "syntax error") rfl rfl

/-- C6: for the query `SELECT 1 AS a, 2 AS b`, the query tool call succeeds
and its returned content is the JSON serialisation of exactly one row mapping
column a to 1 and column b to 2. -/
theorem select_constants_result_fidelity (pool : PoolState) (db : Database)
    (ro rbFault : Bool) :
    (handleQueryTool pool ⟨db, ro, none⟩
        (SqlStmt.read (fun _ => [[("a", Value.vInt 1), ("b", Value.vInt 2)]])) rbFault).outcome
      = Except.ok [[("a", Value.vInt 1), ("b", Value.vInt 2)]]
    ∧ (handleQueryTool pool ⟨db, ro, none⟩
        (SqlStmt.read (fun _ => [[("a", Value.vInt 1), ("b", Value.vInt 2)]])) rbFault).content
      = some "[\n  \x7b\n    \"a\": 1,\n    \"b\": 2\n  \x7d\n]" :=
  ⟨rfl, rfl⟩

/-- C7: startup connection-descriptor resolution defaults an absent database
name (empty pathname or `/`) to the fixed database `mysql` and an absent
username to the fixed account `root`, and leaves a URL that already carries
both unchanged. -/
theorem startup_url_defaulting (u : Url) :
    ((u.pathname = "" ∨ u.pathname = "/") →
      (connectionConfigOf (resolveDatabaseUrl u)).database = "mysql")
    ∧ (u.username = "" → (connectionConfigOf (resolveDatabaseUrl u)).user = "root")
    ∧ ((u.pathname ≠ "" ∧ u.pathname ≠ "/" ∧ u.username ≠ "") → resolveDatabaseUrl u = u) := by
  obtain ⟨sc, un, pw, ho, po, pa⟩ := u
  refine ⟨?_, ?_, ?_⟩
  · intro h
    simp only [resolveDatabaseUrl, connectionConfigOf]
    split_ifs <;> rfl
  · intro h
    subst h
    rfl
  · rintro ⟨h1, h2, h3⟩
    have hp : ¬(pa = "" ∨ pa = "/") := by
      rintro (hx | hx)
      · exact h1 hx
      · exact h2 hx
    simp only [resolveDatabaseUrl]
    rw [if_neg h3, if_neg hp]

/-- Witness for C7: a URL with no database and no username resolves to the
`mysql` database under the `root` account; a fully specified URL is
unchanged. -/
theorem startup_url_defaulting_witness :
    (connectionConfigOf (resolveDatabaseUrl ⟨"mysql", "", "", "localhost", none, ""⟩)).database
      = "mysql"
    ∧ (connectionConfigOf (resolveDatabaseUrl ⟨"mysql", "", "", "localhost", none, ""⟩)).user
      = "root"
    ∧ resolveDatabaseUrl ⟨"mysql", "alice", "pw", "db.example", some 3307, "/appdb"⟩
      = ⟨"mysql", "alice", "pw", "db.example", some 3307, "/appdb"⟩ :=
  ⟨(startup_url_defaulting _).1 (Or.inl rfl),
   (startup_url_defaulting _).2.1 rfl,
   (startup_url_defaulting _).2.2 ⟨by decide, by decide, by decide⟩⟩

/-- C8: the resource base URL always has its password component stripped, so
two runs whose connection URLs differ only in the password produce identical
resource lists. -/
theorem resource_list_password_independent (pool : PoolState) (db : Database)
    (qf : Option QueryError) (u1 u2 : Url)
    (h : stripPassword u1 = stripPassword u2) :
    (resourceBaseUrl u1).password = ""
    ∧ (handleListResources pool db u1 qf).outcome
        = (handleListResources pool db u2 qf).outcome := by
  have hb : resourceBaseUrl u1 = resourceBaseUrl u2 := by
    obtain ⟨s1, n1, p1, h1, o1, a1⟩ := u1
    obtain ⟨s2, n2, p2, h2, o2, a2⟩ := u2
    simp only [stripPassword, Url.mk.injEq, true_and, and_true] at h
    obtain ⟨e1, e2, e3, e4, e5⟩ := h
    subst e1; subst e2; subst e3; subst e4; subst e5
    rfl
  refine ⟨rfl, ?_⟩
  simp only [handleListResources, hb]

/-- Witness for C8: two concrete URLs differing only in password yield the
same resource list, and the base URL carries no password. -/
theorem resource_list_password_independent_witness :
    (resourceBaseUrl ⟨"mysql", "alice", "pw1", "db.example", none, "/appdb"⟩).password = ""
    ∧ (handleListResources ⟨0⟩ [("t1", [])]
          ⟨"mysql", "alice", "pw1", "db.example", none, "/appdb"⟩ none).outcome
      = (handleListResources ⟨0⟩ [("t1", [])]
          ⟨"mysql", "alice", "pw2", "db.example", none, "/appdb"⟩ none).outcome :=
  resource_list_password_independent ⟨0⟩ [("t1", [])] none
    ⟨"mysql", "alice", "pw1", "db.example", none, "/appdb"⟩
    ⟨"mysql", "alice", "pw2", "db.example", none, "/appdb"⟩ rfl

/-- C9: a read-resource request whose URI's final path segment is not
`schema` fails with `Invalid resource URI` before any connection is acquired,
leaving the pool untouched; when the final segment is `schema`, the table
queried is the second-to-last path segment. -/
theorem read_resource_uri_validation (pool : PoolState) (uri : Url)
    (colsOf : Option String → List Row) (qf : Option String) :
    ((pathSegments uri.pathname).getLast? ≠ some SCHEMA_PATH →
      (handleReadResource pool uri colsOf qf).outcome = Except.error "Invalid resource URI"
      ∧ (handleReadResource pool uri colsOf qf).pool = pool
      ∧ (handleReadResource pool uri colsOf qf).poolEvents = [])
    ∧ ((pathSegments uri.pathname).getLast? = some SCHEMA_PATH →
      (handleReadResource pool uri colsOf qf).queriedTable
        = some ((pathSegments uri.pathname).dropLast.getLast?)) := by
  constructor
  · intro h
    simp [handleReadResource, h]
  · intro h
    simp [handleReadResource, h]

/-- Witness for C9 at a concrete invalid URI and a concrete valid URI. -/
theorem read_resource_uri_validation_witness :
    ((handleReadResource ⟨0⟩ ⟨"mysql", "", "", "h", none, "/foo/bar"⟩ (fun _ => []) none).outcome
        = Except.error "Invalid resource URI"
      ∧ (handleReadResource ⟨0⟩ ⟨"mysql", "", "", "h", none, "/foo/bar"⟩ (fun _ => []) none).pool
        = ⟨0⟩
      ∧ (handleReadResource ⟨0⟩ ⟨"mysql", "", "", "h", none, "/foo/bar"⟩ (fun _ => []) none).poolEvents
        = [])
    ∧ (handleReadResource ⟨0⟩ ⟨"mysql", "", "", "h", none, "/users/schema"⟩ (fun _ => []) none).queriedTable
        = some (some "users") := by
  constructor
  · exact (read_resource_uri_validation ⟨0⟩ ⟨"mysql", "", "", "h", none, "/foo/bar"⟩
      (fun _ => []) none).1 (by decide)
  · have hq := (read_resource_uri_validation ⟨0⟩ ⟨"mysql", "", "", "h", none, "/users/schema"⟩
      (fun _ => []) none).2 (by decide)
    rw [hq]
    decide

/-- C10: the executor never clears the session read-only mode: after any
query tool call on a pooled connection (success or failure, rollback failure
included), the connection returned to the pool still has session-level
read-only mode set, so subsequent operations reusing it run under that
setting; in particular a caller-supplied `SET SESSION TRANSACTION READ
WRITE` is rejected because a transaction is already in progress. -/
theorem read_only_mode_persists (pool : PoolState) (conn : MySqlConn) (sql : SqlStmt)
    (rbFault : Bool) (h : conn.tx = none) :
    (handleQueryTool pool conn sql rbFault).conn.readOnlyMode = true := by
  obtain ⟨cm, ro, tx⟩ := conn
  cases tx with
  | some t => simp at h
  | none =>
    cases sql with
    | read q => cases rbFault <;> rfl
    | write f ddl => cases ddl <;> cases rbFault <;> rfl
    | fail e => cases rbFault <;> rfl
    | beginTx => cases rbFault <;> rfl
    | commitTx => cases rbFault <;> rfl
    | rollbackTx => cases rbFault <;> rfl
    | setSessionReadOnly => cases rbFault <;> rfl
    | setSessionReadWrite => cases rbFault <;> rfl

/-- Witness for C10: even when the caller submits
`SET SESSION TRANSACTION READ WRITE`, the released connection is still in
read-only mode. -/
theorem read_only_mode_persists_witness :
    (handleQueryTool ⟨0⟩ ⟨[], false, none⟩ SqlStmt.setSessionReadWrite false).conn.readOnlyMode
      = true :=
  read_only_mode_persists ⟨0⟩ ⟨[], false, none⟩ SqlStmt.setSessionReadWrite false rfl

end MySqlMcp
